import Mathlib

/-!
Verification development for the inbound-webmention-to-outbound-delivery
pipeline of bridgy-fed (src/webmention.py). The Python code is shallowly
embedded: dictionaries become structures over the fields the code reads,
Python truthiness is modelled explicitly, external transport calls
(common.signed_post) become an outcome oracle, and the per-request mutable
state of Webmention.try_activitypub becomes explicit state passing.
-/

set_option maxHeartbeats 1000000

deriving instance DecidableEq for Except

namespace BridgyFed

/-- Python truthiness of an optional string: None and the empty string are
falsy, every other string is truthy. -/
def pyTruthy : Option String → Bool
  | some s => s ≠ ""
  | none => false

/-- Python `a or b` on optional strings: yields `b` unchanged when `a` is
falsy. -/
def pyOrS (a b : Option String) : Option String :=
  if pyTruthy a then a else b

/-- One item of a parsed microformats2 document: its properties map, each
property holding a list of values (values modelled as strings). -/
structure MF2Item where
  properties : List (String × List String)
deriving DecidableEq

/-- Parsed microformats2 document: its list of items. -/
structure MF2 where
  items : List MF2Item
deriving DecidableEq

/-- Model of granary.microformats2.first_props(props).get(key): the first
value of the named property, None when the property is absent or empty. -/
def firstProp (props : List (String × List String)) (key : String) : Option String :=
  match props.lookup key with
  | some (v :: _) => some v
  | _ => none

/-- Model of the local helper content(mf2) of webmention.py lines 149-154:
the first value of the first item's content property, None when there are
no items or no content property. -/
def mf2Content (m : MF2) : Option String :=
  match m.items with
  | item :: _ => firstProp item.properties "content"
  | [] => none

/-- Model of line 158, orig_content and new_content and orig_content ==
new_content: true only when both contents are truthy and equal. -/
def sameContent (orig new : Option String) : Bool :=
  pyTruthy orig && pyTruthy new && orig == new

/-- Fields of the AS2 object wrapped by the delivery payload that the code
touches: only its updated timestamp (lines 171-172). -/
structure AS2Obj where
  updated : Option String
deriving DecidableEq

/-- Fields of the outbound AS2 payload (self.source_as2) that
try_activitypub reads or writes: type, actor, and the wrapped object. -/
structure AS2 where
  typ : String
  actor : Option String
  object : Option AS2Obj
deriving DecidableEq

/-- Fields of a fetched target object (activity.target_as2) that the code
reads in the Follow branch (line 177): id and first url. -/
structure TargetObj where
  id : Option String
  url : Option String
deriving DecidableEq

/-- Ledger entry for one source to target delivery attempt (models.Activity
as used by webmention.py): status, stored source snapshot (None when
falsy), cached target object (None when falsy). -/
structure Activity where
  source : String
  target : String
  status : String
  source_mf2 : Option MF2
  target_as2 : Option TargetObj
deriving DecidableEq

/-- Outcome of one signed delivery call (common.signed_post, external
transport): a response with body text and status code, or one of the
exception classes lines 195-200 distinguish. -/
inductive PostOutcome where
  | success (text : String) (code : Nat)
  | badGateway (msg : String)
  | httpError (msg : String) (code : Nat)
  | otherError (msg : String)
deriving DecidableEq

/-- Per-request inputs of the delivery loop: the external AS2 builder of
lines 142-143 (common.postprocess_as2 composed with as2.from_as1, given the
target object), the local actor fallback of line 145, the clock of line
172, the transport oracle, the newly parsed source snapshot, and the AS1
object url used by the Follow branch fallback (line 178). -/
structure DeliveryEnv where
  mkAS2 : Option TargetObj → AS2
  hostActor : String
  now : String
  post : String → AS2 → PostOutcome
  sourceMf2 : MF2
  as1ObjectUrl : Option String

/-- Mutable state of try_activitypub across the delivery loop, made
explicit: the lazily built payload, the last successful response, the last
recorded error, plus traces of the signed_post calls made, the Follower
records created by the Follow branch, and the Activity puts. -/
structure BatchState where
  source_as2 : Option AS2
  lastSuccess : Option (String × Nat)
  lastError : Option PostOutcome
  calls : List (String × AS2)
  newFollowers : List (Option String)
  puts : List Activity
deriving DecidableEq

/-- Model of lines 139-145: build the payload lazily from the pair's target
object when absent, then default a falsy actor to the local actor url. -/
def builtAS2 (env : DeliveryEnv) (cur : Option AS2) (targetObj : Option TargetObj) : AS2 :=
  let p := match cur with
    | some p => p
    | none => env.mkAS2 targetObj
  if pyTruthy p.actor then p else { p with actor := some env.hostActor }

/-- Model of the skip condition of lines 147-160: previously complete, a
truthy stored snapshot, and both extracted contents truthy and equal. -/
def dedupSkip (a : Activity) (newMf2 : MF2) : Bool :=
  a.status == "complete" &&
    (match a.source_mf2 with
     | some stored => sameContent (mf2Content stored) (mf2Content newMf2)
     | none => false)

/-- Model of lines 162-163: a Create payload for a previously complete
Activity is rewritten to Update. -/
def promoteCreate (a : Activity) (p : AS2) : AS2 :=
  if a.status == "complete" && p.typ == "Create" then { p with typ := "Update" } else p

/-- Model of lines 165-172: an Update payload gets a default updated
timestamp on its wrapped object when the object is present and has none. -/
def stampUpdated (now : String) (p : AS2) : AS2 :=
  if p.typ == "Update" then
    match p.object with
    | some o => if o.updated.isNone then { p with object := some { o with updated := some now } } else p
    | none => p
  else p

/-- The payload a non-skipped pair hands to signed_post: built (lines
139-145), promoted (162-163), stamped (165-172). -/
def sentPayload (env : DeliveryEnv) (cur : Option AS2) (a : Activity) : AS2 :=
  stampUpdated env.now (promoteCreate a (builtAS2 env cur a.target_as2))

/-- Model of lines 176-178: the Follower destination for a Follow payload,
target object's id, else its url, else the AS1 object url. -/
def followDest (targetObj : Option TargetObj) (as1ObjUrl : Option String) : Option String :=
  match targetObj with
  | some t => pyOrS t.id t.url
  | none => as1ObjUrl

/-- Model of one iteration of the delivery loop, lines 138-190: either the
dedup skip (which keeps the payload mutations made before the continue) or
payload finalisation, the Follow branch, the signed post, status update and
put. -/
def processPair (env : DeliveryEnv) (st : BatchState) (pair : Activity × String) : BatchState :=
  let a := pair.1
  let inbox := pair.2
  if dedupSkip a env.sourceMf2 then
    { st with source_as2 := some (builtAS2 env st.source_as2 a.target_as2) }
  else
    let p := sentPayload env st.source_as2 a
    let nf := if p.typ == "Follow" then st.newFollowers ++ [followDest a.target_as2 env.as1ObjectUrl]
              else st.newFollowers
    match env.post inbox p with
    | .success t c =>
        { source_as2 := some p, lastSuccess := some (t, c), lastError := st.lastError,
          calls := st.calls ++ [(inbox, p)], newFollowers := nf,
          puts := st.puts ++ [{ a with status := "complete" }] }
    | o =>
        { source_as2 := some p, lastSuccess := st.lastSuccess, lastError := some o,
          calls := st.calls ++ [(inbox, p)], newFollowers := nf,
          puts := st.puts ++ [{ a with status := "error" }] }

/-- State at line 133-134: nothing delivered yet; the payload may already
exist (profile-update path) or not (content path). -/
def initialBatchState (init : Option AS2) : BatchState :=
  { source_as2 := init, lastSuccess := none, lastError := none,
    calls := [], newFollowers := [], puts := [] }

/-- The whole delivery loop of lines 138-190 over the resolved pairs. -/
def processTargets (env : DeliveryEnv) (init : Option AS2) (targets : List (Activity × String)) : BatchState :=
  targets.foldl (processPair env) (initialBatchState init)

/-- Caller-visible outcome of try_activitypub: a body with a status code
(a Flask tuple), a re-raised exception, a bare body string, or None when
there were no targets (line 131). -/
inductive BatchResult where
  | resp (body : String) (code : Nat)
  | raised (msg : String)
  | text (body : String)
  | noTargets
deriving DecidableEq

/-- Model of str(error) at lines 198-200: the error's message, and the
string None when no error was recorded. -/
def strOfError : Option PostOutcome → String
  | none => "None"
  | some (.success t _) => t
  | some (.badGateway m) => m
  | some (.httpError m _) => m
  | some (.otherError m) => m

/-- Model of lines 192-200: precedence over the recorded last success and
last error, with an empty success body replaced by the string Sent!. -/
def aggregate (st : BatchState) : BatchResult :=
  match st.lastSuccess with
  | some (t, c) => .resp (if t == "" then "Sent!" else t) c
  | none =>
    match st.lastError with
    | some (.badGateway m) => .raised m
    | some (.httpError m c) => .resp m c
    | e => .text (strOfError e)

/-- Model of try_activitypub given the resolved pairs, lines 129-200. -/
def try_activitypub (env : DeliveryEnv) (init : Option AS2) (targets : List (Activity × String)) : BatchResult :=
  if targets.isEmpty then .noTargets
  else aggregate (processTargets env init targets)

/-- Outcomes of a list of recorded signed_post calls under the transport
oracle. -/
def outcomesOf (env : DeliveryEnv) (calls : List (String × AS2)) : List PostOutcome :=
  calls.map fun c => env.post c.1 c.2

/-- The last successful outcome of a batch, scanning left to right. -/
def lastSuccessOf (outs : List PostOutcome) : Option (String × Nat) :=
  outs.foldl (fun acc o => match o with | .success t c => some (t, c) | _ => acc) none

/-- The last failing outcome of a batch, scanning left to right; a later
success does not clear it (the code never resets the error variable). -/
def lastErrorOf (outs : List PostOutcome) : Option PostOutcome :=
  outs.foldl (fun acc o => match o with | .success _ _ => acc | e => some e) none

/-- Modelled from the spec (section 4.4, outcome aggregation, amended by
the Sent! counterexample): the batch outcome as a function of the sequence
of delivery-call outcomes alone, with the stated precedence. -/
def aggregateFromOutcomes (outs : List PostOutcome) : BatchResult :=
  match lastSuccessOf outs with
  | some (t, c) => .resp (if t == "" then "Sent!" else t) c
  | none =>
    match lastErrorOf outs with
    | some (.badGateway m) => .raised m
    | some (.httpError m c) => .resp m c
    | e => .text (strOfError e)

theorem outcomesOf_append (env : DeliveryEnv) (l : List (String × AS2)) (c : String × AS2) :
    outcomesOf env (l ++ [c]) = outcomesOf env l ++ [env.post c.1 c.2] := by
  simp [outcomesOf]

theorem lastSuccessOf_append (l : List PostOutcome) (o : PostOutcome) :
    lastSuccessOf (l ++ [o]) =
      match o with
      | .success t c => some (t, c)
      | _ => lastSuccessOf l := by
  cases o <;> simp [lastSuccessOf, List.foldl_append]

theorem lastErrorOf_append (l : List PostOutcome) (o : PostOutcome) :
    lastErrorOf (l ++ [o]) =
      match o with
      | .success _ _ => lastErrorOf l
      | e => some e := by
  cases o <;> simp [lastErrorOf, List.foldl_append]

/-- Invariant of the delivery loop: the recorded last success and last
error are the rightmost success and rightmost failure among the outcomes of
the signed_post calls made so far. -/
def stTracks (env : DeliveryEnv) (st : BatchState) : Prop :=
  st.lastSuccess = lastSuccessOf (outcomesOf env st.calls) ∧
  st.lastError = lastErrorOf (outcomesOf env st.calls)

theorem processPair_tracks (env : DeliveryEnv) (st : BatchState) (pair : Activity × String)
    (h : stTracks env st) : stTracks env (processPair env st pair) := by
  obtain ⟨hs, he⟩ := h
  unfold processPair
  by_cases hskip : dedupSkip pair.1 env.sourceMf2
  · simpa [hskip, stTracks] using ⟨hs, he⟩
  · simp only [hskip, Bool.false_eq_true, if_false]
    cases hpost : env.post pair.2 (sentPayload env st.source_as2 pair.1) with
    | success t c =>
        constructor <;>
          simp [stTracks, hpost, outcomesOf_append, lastSuccessOf_append, lastErrorOf_append, hs, he]
    | badGateway m =>
        constructor <;>
          simp [stTracks, hpost, outcomesOf_append, lastSuccessOf_append, lastErrorOf_append, hs, he]
    | httpError m c =>
        constructor <;>
          simp [stTracks, hpost, outcomesOf_append, lastSuccessOf_append, lastErrorOf_append, hs, he]
    | otherError m =>
        constructor <;>
          simp [stTracks, hpost, outcomesOf_append, lastSuccessOf_append, lastErrorOf_append, hs, he]

theorem foldl_processPair_tracks (env : DeliveryEnv) :
    ∀ (targets : List (Activity × String)) (st : BatchState),
      stTracks env st → stTracks env (targets.foldl (processPair env) st) := by
  intro targets
  induction targets with
  | nil => intro st h; simpa using h
  | cons pr rest ih =>
      intro st h
      simpa using ih (processPair env st pr) (processPair_tracks env st pr h)

theorem processTargets_tracks (env : DeliveryEnv) (init : Option AS2)
    (targets : List (Activity × String)) : stTracks env (processTargets env init targets) := by
  apply foldl_processPair_tracks
  constructor <;> simp [initialBatchState, outcomesOf, lastSuccessOf, lastErrorOf]

/-- Helper shared by the outcome-precedence claims: on a nonempty batch,
try_activitypub returns exactly the aggregation of the sequence of
delivery-call outcomes. -/
theorem try_eq_aggregateFromOutcomes (env : DeliveryEnv) (init : Option AS2)
    (targets : List (Activity × String)) (h : targets ≠ []) :
    try_activitypub env init targets =
      aggregateFromOutcomes (outcomesOf env (processTargets env init targets).calls) := by
  obtain ⟨hs, he⟩ := processTargets_tracks env init targets
  unfold try_activitypub
  rw [if_neg (by simpa using h)]
  unfold aggregate aggregateFromOutcomes
  rw [← hs, ← he]

/-- C1 (amended): after a delivery batch of try_activitypub, the outcome
follows this precedence over the sequence of signed delivery outcomes: if
at least one delivery succeeded, the body of the last successful delivery
(replaced by the string Sent! when the body is empty) and its status code
are returned; otherwise, if the last recorded error is a gateway failure,
it is re-raised; otherwise, if the last recorded error is a remote HTTP
error, its status code and message are returned; otherwise the recorded
error's text is returned with no specific status. -/
theorem c1_batch_outcome_precedence (env : DeliveryEnv) (init : Option AS2)
    (targets : List (Activity × String)) (h : targets ≠ []) :
    try_activitypub env init targets =
      aggregateFromOutcomes (outcomesOf env (processTargets env init targets).calls) :=
  try_eq_aggregateFromOutcomes env init targets h

/-- Delivery environment whose single transport outcome is a remote HTTP
rejection, used to instantiate the C1 theorem. -/
def wEnv1 : DeliveryEnv :=
  { mkAS2 := fun _ => { typ := "Note", actor := none, object := none },
    hostActor := "https://fed.brid.gy/w.example",
    now := "2022-11-01T00:00:00",
    post := fun _ _ => .httpError "403 Client Error" 403,
    sourceMf2 := { items := [] },
    as1ObjectUrl := none }

/-- Fresh ledger entry used by the C1 witness. -/
def wAct1 : Activity :=
  { source := "https://w.example/post", target := "https://remote.example/",
    status := "new", source_mf2 := none, target_as2 := none }

theorem c1_batch_outcome_precedence_witness :
    try_activitypub wEnv1 none [(wAct1, "https://remote.example/inbox")] =
      aggregateFromOutcomes
        (outcomesOf wEnv1 (processTargets wEnv1 none [(wAct1, "https://remote.example/inbox")]).calls) :=
  c1_batch_outcome_precedence wEnv1 none [(wAct1, "https://remote.example/inbox")] (by decide)

/-- Delivery environment whose single transport outcome is a success with
an empty response body. -/
def cexEnv1 : DeliveryEnv :=
  { mkAS2 := fun _ => { typ := "Note", actor := some "https://fed.brid.gy/a.example", object := none },
    hostActor := "https://fed.brid.gy/a.example",
    now := "2022-11-01T00:00:00",
    post := fun _ _ => .success "" 202,
    sourceMf2 := { items := [] },
    as1ObjectUrl := none }

/-- Fresh ledger entry used by the C1 counterexample. -/
def cexAct1 : Activity :=
  { source := "https://a.example/post", target := "https://remote.example/",
    status := "new", source_mf2 := none, target_as2 := none }

/-- C1 counterexample: the batch's one signed delivery succeeds with body
empty and status 202, yet the returned body is the literal Sent!, not the
successful delivery's (empty) response body as the claim states. -/
theorem c1_counterexample :
    outcomesOf cexEnv1 (processTargets cexEnv1 none [(cexAct1, "https://remote.example/inbox")]).calls
        = [.success "" 202] ∧
    try_activitypub cexEnv1 none [(cexAct1, "https://remote.example/inbox")] = .resp "Sent!" 202 ∧
    ("Sent!" : String) ≠ "" :=
  ⟨rfl, rfl, by decide⟩

theorem foldl_processPair_calls_length (env : DeliveryEnv) :
    ∀ (targets : List (Activity × String)) (st : BatchState),
      ((targets.foldl (processPair env) st).calls).length
        = st.calls.length + (targets.filter (fun pr => ! dedupSkip pr.1 env.sourceMf2)).length := by
  intro targets
  induction targets with
  | nil => intro st; simp
  | cons pr rest ih =>
      intro st
      rw [List.foldl_cons, ih (processPair env st pr)]
      unfold processPair
      by_cases hskip : dedupSkip pr.1 env.sourceMf2
      · simp [hskip]
      · simp only [hskip, Bool.false_eq_true, if_false]
        cases hpost : env.post pr.2 (sentPayload env st.source_as2 pr.1) <;>
          simp [hpost, List.filter_cons, hskip] <;> omega

/-- C2 (amended): a gateway-classified delivery failure is caught and
recorded like any other per-target failure and does not abort delivery to
the sibling targets of the same batch (every non-skipped pair still gets
its signed delivery call); it is re-raised to the caller only after the
whole batch, and only when no delivery succeeded and it is the last
recorded error. -/
theorem c2_gateway_failure_handling (env : DeliveryEnv) (init : Option AS2)
    (targets : List (Activity × String)) :
    (processTargets env init targets).calls.length
        = (targets.filter (fun pr => ! dedupSkip pr.1 env.sourceMf2)).length ∧
    ∀ m, try_activitypub env init targets = .raised m →
      lastSuccessOf (outcomesOf env (processTargets env init targets).calls) = none ∧
      lastErrorOf (outcomesOf env (processTargets env init targets).calls) = some (.badGateway m) := by
  constructor
  · simpa [initialBatchState] using
      foldl_processPair_calls_length env targets (initialBatchState init)
  · intro m hm
    rcases List.eq_nil_or_concat targets with rfl | ⟨_, _, rfl⟩
    · simp [try_activitypub] at hm
    · rw [try_eq_aggregateFromOutcomes env init _ (by simp)] at hm
      unfold aggregateFromOutcomes at hm
      cases h1 : lastSuccessOf (outcomesOf env (processTargets env init _).calls) with
      | some pr => rw [h1] at hm; simp at hm
      | none =>
          rw [h1] at hm
          cases h2 : lastErrorOf (outcomesOf env (processTargets env init _).calls) with
          | none => rw [h2] at hm; simp at hm
          | some e =>
              rw [h2] at hm
              cases e <;> simp_all

/-- Delivery environment for the C2 counterexample: the first inbox fails
with a gateway error, every other inbox accepts. -/
def cexEnv2 : DeliveryEnv :=
  { mkAS2 := fun _ => { typ := "Note", actor := some "https://fed.brid.gy/b.example", object := none },
    hostActor := "https://fed.brid.gy/b.example",
    now := "2022-11-01T00:00:00",
    post := fun inbox _ => if inbox == "https://one.example/inbox"
            then .badGateway "502 Bad Gateway" else .success "ok" 200,
    sourceMf2 := { items := [] },
    as1ObjectUrl := none }

/-- First ledger entry of the C2 counterexample batch. -/
def cexAct2a : Activity :=
  { source := "https://b.example/post", target := "https://one.example/",
    status := "new", source_mf2 := none, target_as2 := none }

/-- Second ledger entry of the C2 counterexample batch. -/
def cexAct2b : Activity :=
  { source := "https://b.example/post", target := "https://two.example/",
    status := "new", source_mf2 := none, target_as2 := none }

/-- The two-target batch of the C2 counterexample. -/
def cexTargets2 : List (Activity × String) :=
  [(cexAct2a, "https://one.example/inbox"), (cexAct2b, "https://two.example/inbox")]

/-- C2 counterexample: the first delivery fails with a gateway error, yet
the sibling target is still delivered (two signed calls are made) and the
gateway error is not re-raised: the batch returns the sibling's success. -/
theorem c2_counterexample :
    (processTargets cexEnv2 none cexTargets2).calls.length = 2 ∧
    outcomesOf cexEnv2 (processTargets cexEnv2 none cexTargets2).calls
        = [.badGateway "502 Bad Gateway", .success "ok" 200] ∧
    try_activitypub cexEnv2 none cexTargets2 = .resp "ok" 200 :=
  ⟨rfl, rfl, rfl⟩

/-- C3 (amended): for every Activity whose persisted status is complete and
whose stored source snapshot and the newly ingested snapshot both extract
the same non-empty content value, delivery for that (Activity, inbox) pair
is skipped entirely: no signed delivery call is made for it and the ledger
entry is not re-persisted. -/
theorem c3_duplicate_update_skipped (env : DeliveryEnv) (st : BatchState)
    (a : Activity) (inbox : String) (m : MF2) (c : String)
    (h1 : a.status = "complete") (h2 : a.source_mf2 = some m)
    (h3 : mf2Content m = some c) (h4 : mf2Content env.sourceMf2 = some c) (h5 : c ≠ "") :
    (processPair env st (a, inbox)).calls = st.calls ∧
    (processPair env st (a, inbox)).puts = st.puts := by
  have hskip : dedupSkip a env.sourceMf2 = true := by
    simp [dedupSkip, h1, h2, h3, h4, sameContent, pyTruthy, h5]
  constructor <;> simp [processPair, hskip]

/-- Snapshot whose first item carries the non-empty content value hello. -/
def wMf3 : MF2 := { items := [{ properties := [("content", ["hello"])] }] }

/-- Delivery environment of the C3 witness: re-ingestion of the unchanged
snapshot wMf3. -/
def wEnv3 : DeliveryEnv :=
  { mkAS2 := fun _ => { typ := "Create", actor := some "https://fed.brid.gy/c.example", object := none },
    hostActor := "https://fed.brid.gy/c.example",
    now := "2022-11-01T00:00:00",
    post := fun _ _ => .success "done" 200,
    sourceMf2 := wMf3,
    as1ObjectUrl := none }

/-- Previously complete ledger entry whose stored snapshot is wMf3. -/
def wAct3 : Activity :=
  { source := "https://c.example/post", target := "https://remote.example/",
    status := "complete", source_mf2 := some wMf3, target_as2 := none }

theorem c3_duplicate_update_skipped_witness :
    (processPair wEnv3 (initialBatchState none) (wAct3, "https://in.example/inbox")).calls
        = (initialBatchState none).calls ∧
    (processPair wEnv3 (initialBatchState none) (wAct3, "https://in.example/inbox")).puts
        = (initialBatchState none).puts :=
  c3_duplicate_update_skipped wEnv3 (initialBatchState none) wAct3 "https://in.example/inbox"
    wMf3 "hello" rfl rfl rfl rfl (by decide)

/-- Snapshot whose first item carries a content property whose value is the
empty string. -/
def cexMf3 : MF2 := { items := [{ properties := [("content", [""])] }] }

/-- Delivery environment of the C3 counterexample: re-ingestion of the
unchanged snapshot cexMf3. -/
def cexEnv3 : DeliveryEnv :=
  { mkAS2 := fun _ => { typ := "Create", actor := some "https://fed.brid.gy/c.example", object := none },
    hostActor := "https://fed.brid.gy/c.example",
    now := "2022-11-01T00:00:00",
    post := fun _ _ => .success "done" 200,
    sourceMf2 := cexMf3,
    as1ObjectUrl := none }

/-- Previously complete ledger entry whose stored snapshot is cexMf3. -/
def cexAct3 : Activity :=
  { source := "https://c.example/post", target := "https://remote.example/",
    status := "complete", source_mf2 := some cexMf3, target_as2 := none }

/-- C3 counterexample: the stored snapshot is literally identical to the
newly ingested one (so both parse to the same extracted content, here the
empty string), the Activity is complete, yet a signed delivery call is
still made because the skip additionally requires the shared content to be
truthy. -/
theorem c3_counterexample :
    cexAct3.status = "complete" ∧
    cexAct3.source_mf2 = some cexEnv3.sourceMf2 ∧
    mf2Content cexMf3 = some "" ∧
    (processTargets cexEnv3 none [(cexAct3, "https://in.example/inbox")]).calls.length = 1 :=
  ⟨rfl, rfl, rfl, rfl⟩

theorem stampUpdated_typ (now : String) (p : AS2) : (stampUpdated now p).typ = p.typ := by
  unfold stampUpdated
  by_cases h : p.typ == "Update"
  · simp only [h, if_true]
    cases p.object with
    | none => rfl
    | some o =>
        by_cases hu : o.updated.isNone
        · simp [hu]
        · simp [hu]
  · simp [h]

/-- C4: for every Activity whose persisted status is complete and whose
delivery payload has type Create, the payload's type is rewritten to
Update before the signed delivery call: the pair's sent payload has type
Update, and the pair either makes no call (dedup skip) or makes exactly one
signed call carrying that rewritten payload. -/
theorem c4_create_promoted_to_update (env : DeliveryEnv) (st : BatchState)
    (a : Activity) (inbox : String)
    (h1 : a.status = "complete")
    (h2 : (builtAS2 env st.source_as2 a.target_as2).typ = "Create") :
    (sentPayload env st.source_as2 a).typ = "Update" ∧
    ((processPair env st (a, inbox)).calls = st.calls ∨
      (processPair env st (a, inbox)).calls = st.calls ++ [(inbox, sentPayload env st.source_as2 a)]) := by
  have hp : (promoteCreate a (builtAS2 env st.source_as2 a.target_as2)).typ = "Update" := by
    simp [promoteCreate, h1, h2]
  have hs : (sentPayload env st.source_as2 a).typ = "Update" := by
    rw [sentPayload, stampUpdated_typ]; exact hp
  refine ⟨hs, ?_⟩
  unfold processPair
  by_cases hskip : dedupSkip a env.sourceMf2
  · left; simp [hskip]
  · right
    simp only [hskip, Bool.false_eq_true, if_false]
    cases hpost : env.post inbox (sentPayload env st.source_as2 a) <;> simp [hpost]

/-- Payload already built earlier in the batch, typed Create. -/
def wPayload4 : AS2 := { typ := "Create", actor := some "https://fed.brid.gy/d.example", object := none }

/-- Batch state of the C4 witness: the Create payload is already built. -/
def wSt4 : BatchState :=
  { source_as2 := some wPayload4, lastSuccess := none, lastError := none,
    calls := [], newFollowers := [], puts := [] }

/-- Delivery environment of the C4 witness. -/
def wEnv4 : DeliveryEnv :=
  { mkAS2 := fun _ => wPayload4,
    hostActor := "https://fed.brid.gy/d.example",
    now := "2022-11-01T00:00:00",
    post := fun _ _ => .success "done" 200,
    sourceMf2 := { items := [] },
    as1ObjectUrl := none }

/-- Previously complete ledger entry with no stored snapshot, so the dedup
skip cannot fire and the pair is re-delivered. -/
def wAct4 : Activity :=
  { source := "https://d.example/post", target := "https://remote.example/",
    status := "complete", source_mf2 := none, target_as2 := none }

theorem c4_create_promoted_to_update_witness :
    (sentPayload wEnv4 wSt4.source_as2 wAct4).typ = "Update" ∧
    ((processPair wEnv4 wSt4 (wAct4, "https://in.example/inbox")).calls = wSt4.calls ∨
      (processPair wEnv4 wSt4 (wAct4, "https://in.example/inbox")).calls
          = wSt4.calls ++ [("https://in.example/inbox", sentPayload wEnv4 wSt4.source_as2 wAct4)]) :=
  c4_create_promoted_to_update wEnv4 wSt4 wAct4 "https://in.example/inbox" rfl rfl

/-- Strict comparison of characters by code point, the order Python string
comparison and the datastore key order use. -/
def charLt (a b : Char) : Bool := a.toNat < b.toNat

/-- Lexicographic strict order on character lists: the order the datastore
applies to string keys in the Follower query of lines 240-242. -/
def lexLt : List Char → List Char → Bool
  | [], [] => false
  | [], _ :: _ => true
  | _ :: _, [] => false
  | a :: as, b :: bs => if charLt a b then true else if charLt b a then false else lexLt as bs

/-- Model of chr(ord(space) + 1) at line 242. -/
def rangeUpperChar : Char := Char.ofNat (Char.toNat ' ' + 1)

theorem rangeUpperChar_eq : rangeUpperChar = '!' := by decide

/-- Model of the Follower key-range filter of lines 240-242: keys strictly
between domain plus space and domain plus the next character after space. -/
def inScanRange (domain : List Char) (key : List Char) : Bool :=
  lexLt (domain ++ [' ']) key && lexLt key (domain ++ [rangeUpperChar])

/-- Modelled from the spec: a Follower key is the pair (domain, actor_id)
serialized as domain, one space, actor id (spec section 3: keys for a given
domain are lexicographically contiguous; section 6: Follower keyed by
(domain, actor_id) with domain-prefix range scan support). The Follower
model class itself is not under src. -/
def followerKeyOf (domain actorId : List Char) : List Char :=
  domain ++ ' ' :: actorId

/-- Fields of a stored Follow activity's actor dict that the fan-out reads
(lines 246-248): the nested endpoints sharedInbox, publicInbox, inbox, plus
whether the dict has any other key (for Python dict truthiness). -/
structure FollowActor where
  sharedInbox : Option String
  publicInbox : Option String
  inbox : Option String
  hasOtherKeys : Bool
deriving DecidableEq

/-- Python truthiness of the actor dict: nonempty. -/
def FollowActor.truthy (a : FollowActor) : Bool :=
  a.hasOtherKeys || a.sharedInbox.isSome || a.publicInbox.isSome || a.inbox.isSome

/-- Stored last_follow snapshot: its actor value. none models an absent or
null actor key, or an actor that is not a dict (line 245 requires a truthy
dict). -/
structure LastFollow where
  actor : Option FollowActor
deriving DecidableEq

/-- Follower index entry as the fan-out reads it: datastore key id, status
string, stored Follow snapshot (none models a falsy stored value). -/
structure Follower where
  key : List Char
  status : String
  last_follow : Option LastFollow
deriving DecidableEq

/-- Model of lines 246-248: preferred inbox extraction, sharedInbox
endpoint, else publicInbox, else inbox, with Python or semantics. -/
def extractInbox (a : FollowActor) : Option String :=
  pyOrS a.sharedInbox (pyOrS a.publicInbox a.inbox)

/-- Model of lines 243-248: the value a single follower adds to the inbox
set, if any: requires status not inactive, a truthy stored snapshot and a
truthy actor dict; the added value may itself be None (inner none). -/
def inboxContribution (f : Follower) : Option (Option String) :=
  if f.status ≠ "inactive" then
    match f.last_follow with
    | some lf =>
        match lf.actor with
        | some a => if a.truthy then some (extractInbox a) else none
        | none => none
    | none => none
  else none

/-- First-occurrence deduplication: the Python set built at lines 239-248,
listed in insertion order. -/
def dedup : List (Option String) → List (Option String)
  | [] => []
  | x :: xs => x :: (dedup xs).filter (fun y => y != x)

/-- Model of Python sorted() over the deduplicated inbox set at line 253:
with at least two elements, any comparison of None with a string raises
TypeError; otherwise the strings are sorted. -/
def pySorted (l : List (Option String)) : Except String (List (Option String)) :=
  match l with
  | [] => .ok []
  | [x] => .ok [x]
  | _ =>
      if l.any (fun x => x.isNone) then
        .error "TypeError: unorderable types: str and NoneType"
      else
        .ok (((l.filterMap id).insertionSort (fun a b => a ≤ b)).map some)

/-- URL lists and verb that target resolution reads from the AS1 activity
(lines 208-213): the inReplyTo urls, the verb, and the object urls. -/
structure AS1 where
  inReplyTo : List String
  verb : String
  objectUrls : List String
deriving DecidableEq

/-- Per-request inputs of activitypub_targets: the external constant
as1.VERBS_WITH_OBJECT, the task flag, source url and domain, the Follower
datastore contents, the parsed source snapshot stored on created ledger
entries, and the ledger upsert. getOrCreate is modelled from the spec:
Activity.get_or_create is an idempotent upsert keyed by (source, target)
(spec section 3); the model class is not under src, so it is kept as a
deterministic function of source and target. -/
structure WMEnv where
  verbsWithObject : List String
  isTask : Bool
  source_url : String
  source_domain : String
  followers : List Follower
  fanoutMf2 : MF2
  getOrCreate : String → String → Activity

/-- Task enqueued on the webmention queue (lines 220-232): its form body
carries the source url. -/
structure QueuedTask where
  source : String
deriving DecidableEq

/-- Result of activitypub_targets: the 202 hand-off of lines 219-237, the
follower fan-out pairs of lines 239-255, an uncaught runtime error from the
fan-out, or the explicit-target branch of lines 257-311 (returned
unexpanded: no claim is about it). -/
inductive TargetsOutcome where
  | asyncAccepted (tasks : List QueuedTask) (status : Nat) (msg : String)
  | fanout (pairs : List (Activity × String))
  | typeError (msg : String)
  | explicitPath (targets : List String)
deriving DecidableEq

/-- Helper for Python str.strip: drop leading slashes. -/
def dropSlashes : List Char → List Char
  | '/' :: cs => dropSlashes cs
  | cs => cs

/-- Model of Python strip with slash: remove leading and trailing slashes
(lines 235 and 57). -/
def pyStripSlashes (s : String) : String :=
  ⟨(dropSlashes (dropSlashes s.data).reverse).reverse⟩

/-- Model of Python rstrip with slash: remove trailing slashes (line 97). -/
def pyRstripSlashes (s : String) : String :=
  ⟨(dropSlashes s.data.reverse).reverse⟩

/-- Status message of the profile self-update case, line 234. -/
def updatingMsg : String := "Updating profile on followers\x27 instances..."

/-- Status message of the content case, line 236. -/
def deliveringMsg : String := "Delivering to followers..."

/-- Model of the follower fan-out of lines 239-255: range-scan the Follower
index, collect each qualifying follower's extracted inbox into a set, sort
it, and build one ledger pair per truthy inbox. -/
def fanout (env : WMEnv) : Except String (List (Activity × String)) :=
  let inRange := env.followers.filter (fun f => inScanRange env.source_domain.data f.key)
  let inboxSet := dedup (inRange.filterMap inboxContribution)
  match pySorted inboxSet with
  | .error e => .error e
  | .ok l =>
      .ok ((l.filterMap (fun ib =>
              match ib with
              | some v => if v == "" then none else some v
              | none => none)).map
            (fun v => (env.getOrCreate env.source_url v, v)))

/-- Model of lines 206-213: explicit targets from inReplyTo, else (for an
object-bearing verb) from the object urls. -/
def resolveTargets (env : WMEnv) (a : AS1) : List String :=
  if a.inReplyTo ≠ [] then a.inReplyTo
  else if a.verb ∈ env.verbsWithObject then a.objectUrls
  else []

/-- Model of activitypub_targets, lines 202-255: with no explicit target,
either enqueue one task and return the 202 hand-off (not in task mode) or
perform the follower fan-out (task mode); with explicit targets, enter the
explicit branch. -/
def activitypub_targets (env : WMEnv) (a : AS1) : TargetsOutcome :=
  let targets := resolveTargets env a
  if targets.isEmpty then
    if env.isTask = false then
      .asyncAccepted [{ source := env.source_url }] 202
        (if pyStripSlashes env.source_url == "https://" ++ env.source_domain
         then updatingMsg else deliveringMsg)
    else
      match fanout env with
      | .ok pairs => .fanout pairs
      | .error e => .typeError e
  else
    .explicitPath targets

theorem charLt_irrefl (a : Char) : charLt a a = false := by simp [charLt]

theorem charLt_asymm {a b : Char} (h : charLt a b = true) : charLt b a = false := by
  simp [charLt] at h ⊢; omega

theorem charEq_of_not_lt {a b : Char} (h1 : charLt a b = false) (h2 : charLt b a = false) :
    a = b := by
  have hn : a.toNat = b.toNat := by
    simp [charLt] at h1 h2; omega
  calc a = Char.ofNat a.toNat := (Char.ofNat_toNat a).symm
    _ = Char.ofNat b.toNat := by rw [hn]
    _ = b := Char.ofNat_toNat b

theorem lexLt_nil_left (l : List Char) : lexLt [] l = !l.isEmpty := by
  cases l <;> rfl

theorem lexLt_nil_right (l : List Char) : lexLt l [] = false := by
  cases l <;> rfl

theorem lexLt_cons (a b : Char) (as bs : List Char) :
    lexLt (a :: as) (b :: bs)
      = if charLt a b then true else if charLt b a then false else lexLt as bs := rfl

theorem charLt_cases (a b : Char) : charLt a b = true ∨ charLt b a = true ∨ a = b := by
  rcases Bool.eq_false_or_eq_true (charLt a b) with h1 | h1
  · exact .inl h1
  · rcases Bool.eq_false_or_eq_true (charLt b a) with h2 | h2
    · exact .inr (.inl h2)
    · exact .inr (.inr (charEq_of_not_lt h1 h2))

theorem charLt_bang_of_space {b : Char} (h : charLt ' ' b = true) : charLt b '!' = false := by
  have h' : Char.toNat ' ' < b.toNat := by simpa [charLt] using h
  have e1 : Char.toNat ' ' = 32 := rfl
  have e2 : Char.toNat '!' = 33 := rfl
  have : ¬ (b.toNat < Char.toNat '!') := by omega
  simpa [charLt] using this

theorem lexLt_cons_single_false {b c : Char} (bs : List Char) (h : charLt b c = false) :
    lexLt (b :: bs) [c] = false := by
  simp [lexLt_cons, h, lexLt_nil_right]

theorem lexLt_cons_false_of {a b : Char} (as bs : List Char)
    (h1 : charLt a b = false) (hne : a ≠ b) : lexLt (a :: as) (b :: bs) = false := by
  rcases Bool.eq_false_or_eq_true (charLt b a) with h2 | h2
  · simp [lexLt_cons, h1, h2]
  · exact absurd (charEq_of_not_lt h1 h2) hne

/-- Core range lemma: a key of shape domain, space, actor id lies strictly
between d plus space and d plus the character after space exactly when its
domain component is d, provided domains contain no space and the actor id
is nonempty. -/
theorem scanRange_core :
    ∀ (d dom : List Char), ' ' ∉ d → ' ' ∉ dom → ∀ (actorId : List Char), actorId ≠ [] →
      ((lexLt (d ++ [' ']) (dom ++ ' ' :: actorId)
        && lexLt (dom ++ ' ' :: actorId) (d ++ ['!'])) = true ↔ dom = d) := by
  intro d
  induction d with
  | nil =>
      intro dom hd hdom actorId ha
      cases dom with
      | nil =>
          cases actorId with
          | nil => exact absurd rfl ha
          | cons c cs =>
              have h2 : charLt ' ' '!' = true := by decide
              simp [lexLt_cons, charLt_irrefl, lexLt_nil_left, h2]
      | cons b dom' =>
          have hb : b ≠ ' ' := fun h => hdom (by simp [h])
          simp only [List.nil_append, List.cons_append]
          apply iff_of_false
          · intro hcontra
            rw [Bool.and_eq_true] at hcontra
            obtain ⟨hA, hB⟩ := hcontra
            rcases charLt_cases ' ' b with h | h | h
            · rw [lexLt_cons_single_false _ (charLt_bang_of_space h)] at hB
              simp at hB
            · rw [lexLt_cons_false_of _ _ (charLt_asymm h) (fun he => hb he.symm)] at hA
              simp at hA
            · exact hb h.symm
          · simp
  | cons a d' ih =>
      intro dom hd hdom actorId ha
      have hd' : ' ' ∉ d' := fun h => hd (List.mem_cons_of_mem a h)
      have haS : a ≠ ' ' := fun h => hd (by simp [h])
      cases dom with
      | nil =>
          simp only [List.nil_append, List.cons_append]
          apply iff_of_false
          · intro hcontra
            rw [Bool.and_eq_true] at hcontra
            obtain ⟨hA, hB⟩ := hcontra
            rcases charLt_cases a ' ' with h | h | h
            · rw [lexLt_cons_false_of _ _ (charLt_asymm h) (fun he => haS he.symm)] at hB
              simp at hB
            · rw [lexLt_cons_false_of _ _ (charLt_asymm h) haS] at hA
              simp at hA
            · exact haS h
          · simp
      | cons b dom' =>
          have hdom' : ' ' ∉ dom' := fun h => hdom (List.mem_cons_of_mem b h)
          by_cases hab : a = b
          · subst hab
            simpa [lexLt_cons, charLt_irrefl] using ih dom' hd' hdom' actorId ha
          · simp only [List.cons_append]
            apply iff_of_false
            · intro hcontra
              rw [Bool.and_eq_true] at hcontra
              obtain ⟨hA, hB⟩ := hcontra
              rcases charLt_cases a b with h | h | h
              · rw [lexLt_cons_false_of _ _ (charLt_asymm h) (fun he => hab he.symm)] at hB
                simp at hB
              · rw [lexLt_cons_false_of _ _ (charLt_asymm h) hab] at hA
                simp at hA
              · exact hab h
            · intro hcon
              injection hcon with hba hrest
              exact hab hba.symm

/-- C8: for every domain d, the key-range filter of the follower scan (keys
strictly between d plus space and d plus the successor character of space)
selects exactly the followers whose key domain equals d and never one of a
different domain, including when one domain is a string prefix of the
other; domains contain no space and actor ids are nonempty. -/
theorem c8_domain_range_scan (d dom actorId : List Char)
    (hd : ' ' ∉ d) (hdom : ' ' ∉ dom) (ha : actorId ≠ []) :
    inScanRange d (followerKeyOf dom actorId) = true ↔ dom = d := by
  have := scanRange_core d dom hd hdom actorId ha
  simpa [inScanRange, followerKeyOf, rangeUpperChar_eq] using this

theorem c8_domain_range_scan_witness :
    inScanRange "a.com".data (followerKeyOf "a.com".data "bob.example".data) = true ∧
    inScanRange "a.com".data (followerKeyOf "a.com.evil".data "bob.example".data) = false := by
  constructor
  · exact (c8_domain_range_scan "a.com".data "a.com".data "bob.example".data
      (by decide) (by decide) (by decide)).mpr rfl
  · have h := c8_domain_range_scan "a.com".data "a.com.evil".data "bob.example".data
      (by decide) (by decide) (by decide)
    by_cases hr : inScanRange "a.com".data (followerKeyOf "a.com.evil".data "bob.example".data) = true
    · exact absurd (h.mp hr) (by decide)
    · simpa using hr

/-- C5: ingesting a source whose parsed activity has no inReplyTo target
and no object target, outside the async task context, enqueues exactly one
durable task carrying the source url and returns the 202 hand-off whose
message distinguishes the profile self-update case from the content case;
the follower index is never consulted (the outcome is the same for every
follower store) and no follower delivery pair is produced. -/
theorem c5_async_handoff (env : WMEnv) (a : AS1)
    (h1 : a.inReplyTo = []) (h2 : a.objectUrls = []) (h3 : env.isTask = false) :
    (activitypub_targets env a =
      .asyncAccepted [{ source := env.source_url }] 202
        (if pyStripSlashes env.source_url == "https://" ++ env.source_domain
         then updatingMsg else deliveringMsg)) ∧
    ∀ fs, activitypub_targets { env with followers := fs } a = activitypub_targets env a := by
  have ht : ∀ e : WMEnv, resolveTargets e a = [] := fun e => by
    simp [resolveTargets, h1, h2]
  constructor
  · simp [activitypub_targets, ht, h3]
  · intro fs
    simp [activitypub_targets, ht, h3]

/-- Actor dict stored for the C5 witness follower. -/
def wActor5 : FollowActor :=
  { sharedInbox := some "https://x.example/inbox", publicInbox := none,
    inbox := none, hasOtherKeys := true }

/-- Follower on file for the C5 witness. -/
def wFollower5 : Follower :=
  { key := "e.example x.example".data, status := "active",
    last_follow := some { actor := some wActor5 } }

/-- Environment of the C5 witness: interactive (non-task) ingestion of a
home-page source with a follower on file. -/
def wEnv5 : WMEnv :=
  { verbsWithObject := ["like", "share", "follow"],
    isTask := false,
    source_url := "https://e.example/",
    source_domain := "e.example",
    followers := [wFollower5],
    fanoutMf2 := { items := [] },
    getOrCreate := fun s t =>
      { source := s, target := t, status := "new", source_mf2 := none, target_as2 := none } }

/-- Parsed AS1 of the C5 witness: a plain note with no reply or object
target. -/
def wAs15 : AS1 := { inReplyTo := [], verb := "post", objectUrls := [] }

theorem c5_async_handoff_witness :
    (activitypub_targets wEnv5 wAs15 =
      .asyncAccepted [{ source := wEnv5.source_url }] 202
        (if pyStripSlashes wEnv5.source_url == "https://" ++ wEnv5.source_domain
         then updatingMsg else deliveringMsg)) ∧
    ∀ fs, activitypub_targets { wEnv5 with followers := fs } wAs15 = activitypub_targets wEnv5 wAs15 :=
  c5_async_handoff wEnv5 wAs15 rfl rfl (by decide)

theorem mem_dedup (x : Option String) : ∀ (l : List (Option String)), x ∈ dedup l ↔ x ∈ l := by
  intro l
  induction l with
  | nil => simp [dedup]
  | cons y ys ih =>
      simp only [dedup, List.mem_cons, List.mem_filter, bne_iff_ne, ne_eq, ih]
      by_cases hxy : x = y
      · subst hxy; tauto
      · tauto

theorem nodup_dedup : ∀ (l : List (Option String)), (dedup l).Nodup := by
  intro l
  induction l with
  | nil => simp [dedup]
  | cons y ys ih =>
      simp only [dedup, List.nodup_cons]
      refine ⟨?_, List.Nodup.filter _ ih⟩
      intro h
      rcases List.mem_filter.mp h with ⟨_, hp⟩
      simp at hp

theorem pySorted_cons2 (y z : Option String) (rest : List (Option String)) :
    pySorted (y :: z :: rest)
      = if (y :: z :: rest).any (fun o => o.isNone)
        then .error "TypeError: unorderable types: str and NoneType"
        else .ok ((((y :: z :: rest).filterMap id).insertionSort (fun a b => a ≤ b)).map some) := rfl

theorem pySorted_mem (l l' : List (Option String)) (h : pySorted l = .ok l') :
    ∀ x, x ∈ l → x ∈ l' := by
  match l with
  | [] => intro x hx; simp at hx
  | [y] =>
      intro x hx
      simp only [pySorted, Except.ok.injEq] at h
      subst h; exact hx
  | y :: z :: rest =>
      intro x hx
      rw [pySorted_cons2] at h
      by_cases hn : (y :: z :: rest).any (fun o => o.isNone)
      · rw [if_pos hn] at h; cases h
      · rw [if_neg hn] at h
        simp only [Except.ok.injEq] at h
        subst h
        have hxs : x.isSome := by
          rcases x with _ | s
          · exact absurd (List.any_eq_true.mpr ⟨none, hx, rfl⟩) hn
          · rfl
        rcases Option.isSome_iff_exists.mp hxs with ⟨s, rfl⟩
        have hs : s ∈ (y :: z :: rest).filterMap id :=
          List.mem_filterMap.mpr ⟨some s, hx, rfl⟩
        have hs' : s ∈ ((y :: z :: rest).filterMap id).insertionSort (fun a b => a ≤ b) :=
          (List.mem_insertionSort _).mpr hs
        exact List.mem_map_of_mem some hs'

theorem pySorted_nodup (l l' : List (Option String)) (h : pySorted l = .ok l')
    (hn : l.Nodup) : l'.Nodup := by
  match l with
  | [] =>
      simp only [pySorted, Except.ok.injEq] at h
      subst h; exact hn
  | [y] =>
      simp only [pySorted, Except.ok.injEq] at h
      subst h; exact hn
  | y :: z :: rest =>
      rw [pySorted_cons2] at h
      by_cases hany : (y :: z :: rest).any (fun o => o.isNone)
      · rw [if_pos hany] at h; cases h
      · rw [if_neg hany] at h
        simp only [Except.ok.injEq] at h
        subst h
        have h1 : ((y :: z :: rest).filterMap id).Nodup := by
          refine List.Nodup.filterMap ?_ hn
          intro a a' b hb hb'
          simp only [Option.mem_def, id] at hb hb'
          rw [hb, hb']
        have h2 : (((y :: z :: rest).filterMap id).insertionSort (fun a b => a ≤ b)).Nodup :=
          (List.perm_insertionSort _ _).nodup_iff.mpr h1
        exact h2.map (Option.some_injective String)

/-- C6: during follower fan-out, every set of followers whose stored Follow
snapshots resolve to one and the same (non-empty) inbox url yields exactly
one (Activity, inbox) delivery pair for that url, not one per follower. -/
theorem c6_inbox_dedup (env : WMEnv) (pairs : List (Activity × String)) (u : String)
    (f : Follower)
    (h1 : fanout env = .ok pairs) (h2 : u ≠ "")
    (h3 : f ∈ env.followers) (h4 : inScanRange env.source_domain.data f.key = true)
    (h5 : inboxContribution f = some (some u)) :
    (pairs.filter (fun pr => pr.2 == u)).length = 1 := by
  simp only [fanout] at h1
  split at h1
  case h_1 e heq => cases h1
  case h_2 l heq =>
    simp only [Except.ok.injEq] at h1
    subst h1
    have hmemS : some u ∈ dedup ((env.followers.filter
        (fun f => inScanRange env.source_domain.data f.key)).filterMap inboxContribution) := by
      rw [mem_dedup]
      exact List.mem_filterMap.mpr ⟨f, List.mem_filter.mpr ⟨h3, h4⟩, h5⟩
    have hmemL : some u ∈ l := pySorted_mem _ _ heq _ hmemS
    have hndL : l.Nodup := pySorted_nodup _ _ heq (nodup_dedup _)
    have hndF : (l.filterMap (fun ib =>
        match ib with
        | some v => if v == "" then none else some v
        | none => none)).Nodup := by
      refine List.Nodup.filterMap ?_ hndL
      intro a a' b hb hb'
      simp only [Option.mem_def] at hb hb'
      rcases a with _ | v
      · simp at hb
      · rcases a' with _ | v'
        · simp at hb'
        · by_cases hv : v == ""
          · simp [hv] at hb
          · by_cases hv' : v' == ""
            · simp [hv'] at hb'
            · simp [hv] at hb
              simp [hv'] at hb'
              rw [hb, hb']
    have hmemF : u ∈ l.filterMap (fun ib =>
        match ib with
        | some v => if v == "" then none else some v
        | none => none) := by
      refine List.mem_filterMap.mpr ⟨some u, hmemL, ?_⟩
      simp [h2]
    have hcount : (l.filterMap (fun ib =>
        match ib with
        | some v => if v == "" then none else some v
        | none => none)).count u = 1 :=
      List.count_eq_one_of_mem hndF hmemF
    rw [List.filter_map]
    rw [List.length_map]
    have hfc : (fun pr : Activity × String => pr.2 == u) ∘
        (fun v => (env.getOrCreate env.source_url v, v)) = fun v => v == u := rfl
    rw [hfc]
    rw [show (fun v : String => v == u) = (fun v => v == u) from rfl]
    rw [← List.countP_eq_length_filter, ← List.count_eq_countP]
    exact hcount

/-- Actor dict shared by the two C6 witness followers: one sharedInbox
endpoint. -/
def wActor6 : FollowActor :=
  { sharedInbox := some "https://shared.example/inbox", publicInbox := none,
    inbox := none, hasOtherKeys := true }

/-- First C6 witness follower. -/
def wF6a : Follower :=
  { key := "f.example alice.example".data, status := "active",
    last_follow := some { actor := some wActor6 } }

/-- Second C6 witness follower, sharing the same sharedInbox. -/
def wF6b : Follower :=
  { key := "f.example bob.example".data, status := "active",
    last_follow := some { actor := some wActor6 } }

/-- Fan-out environment of the C6 witness: two followers of f.example with
the same shared inbox. -/
def wEnv6 : WMEnv :=
  { verbsWithObject := ["like", "share", "follow"],
    isTask := true,
    source_url := "https://f.example/post",
    source_domain := "f.example",
    followers := [wF6a, wF6b],
    fanoutMf2 := { items := [] },
    getOrCreate := fun s t =>
      { source := s, target := t, status := "new", source_mf2 := none, target_as2 := none } }

/-- The single delivery pair the C6 witness fan-out produces. -/
def wPairs6 : List (Activity × String) :=
  [({ source := "https://f.example/post", target := "https://shared.example/inbox",
      status := "new", source_mf2 := none, target_as2 := none },
    "https://shared.example/inbox")]

theorem c6_inbox_dedup_witness :
    (wPairs6.filter (fun pr => pr.2 == "https://shared.example/inbox")).length = 1 :=
  c6_inbox_dedup wEnv6 wPairs6 "https://shared.example/inbox" wF6a rfl (by decide)
    (by decide) (by decide) rfl

/-- C9: during follower fan-out only followers whose status is active
contribute an inbox: a follower with any other status (the status domain is
active or inactive) extracts no inbox, and the fan-out result is unchanged
when all non-active followers are removed beforehand. -/
theorem c9_active_only (env : WMEnv)
    (hdom : ∀ f ∈ env.followers, f.status = "active" ∨ f.status = "inactive") :
    (∀ f ∈ env.followers, f.status ≠ "active" → inboxContribution f = none) ∧
    fanout env = fanout { env with followers := env.followers.filter (fun f => f.status == "active") } := by
  constructor
  · intro f hf hne
    rcases hdom f hf with h | h
    · exact absurd h hne
    · simp [inboxContribution, h]
  · have key : ∀ (fs : List Follower), (∀ f ∈ fs, f.status = "active" ∨ f.status = "inactive") →
        (fs.filter (fun f => inScanRange env.source_domain.data f.key)).filterMap inboxContribution
          = ((fs.filter (fun f => f.status == "active")).filter
              (fun f => inScanRange env.source_domain.data f.key)).filterMap inboxContribution := by
      intro fs
      induction fs with
      | nil => intro _; rfl
      | cons g gs ih =>
          intro hall
          have hgs : ∀ f ∈ gs, f.status = "active" ∨ f.status = "inactive" :=
            fun f hf => hall f (List.mem_cons_of_mem _ hf)
          rcases hall g (by simp) with hact | hinact
          · by_cases hr : inScanRange env.source_domain.data g.key
            · simp [List.filter_cons, hact, hr, List.filterMap_cons, ih hgs]
            · simp [List.filter_cons, hact, hr, ih hgs]
          · have hc : inboxContribution g = none := by simp [inboxContribution, hinact]
            by_cases hr : inScanRange env.source_domain.data g.key
            · simp [List.filter_cons, hinact, hr, List.filterMap_cons, hc, ih hgs]
            · simp [List.filter_cons, hinact, hr, ih hgs]
    have hkey := key env.followers hdom
    simp only [fanout]
    rw [hkey]

/-- Follower with inactive status used by the C9 witness. -/
def wF9 : Follower :=
  { key := "f.example carol.example".data, status := "inactive",
    last_follow := some { actor := some wActor6 } }

/-- Fan-out environment of the C9 witness: one active and one inactive
follower. -/
def wEnv9 : WMEnv :=
  { verbsWithObject := ["like", "share", "follow"],
    isTask := true,
    source_url := "https://f.example/post",
    source_domain := "f.example",
    followers := [wF6a, wF9],
    fanoutMf2 := { items := [] },
    getOrCreate := fun s t =>
      { source := s, target := t, status := "new", source_mf2 := none, target_as2 := none } }

theorem c9_active_only_witness :
    (∀ f ∈ wEnv9.followers, f.status ≠ "active" → inboxContribution f = none) ∧
    fanout wEnv9 = fanout { wEnv9 with followers := wEnv9.followers.filter (fun f => f.status == "active") } :=
  c9_active_only wEnv9 (by decide)

/-- Actor dict of the C10 failing input: a truthy dict (it has other keys)
with none of endpoints sharedInbox, publicInbox or inbox. -/
def bugActorB : FollowActor :=
  { sharedInbox := none, publicInbox := none, inbox := none, hasOtherKeys := true }

/-- Actor dict of the C10 sibling follower: it resolves a plain inbox. -/
def bugActorA : FollowActor :=
  { sharedInbox := none, publicInbox := none,
    inbox := some "https://pleroma.example/inbox", hasOtherKeys := true }

/-- Sibling follower of the C10 failing input whose actor does resolve an
inbox. -/
def bugFollowerA : Follower :=
  { key := "g.example alice.example".data, status := "active",
    last_follow := some { actor := some bugActorA } }

/-- Inbox-less follower of the C10 failing input. -/
def bugFollowerB : Follower :=
  { key := "g.example bob.example".data, status := "active",
    last_follow := some { actor := some bugActorB } }

/-- Fan-out store of the C10 failing input: one resolvable follower and one
inbox-less follower of the same domain. -/
def bugEnv10 : WMEnv :=
  { verbsWithObject := ["like", "share", "follow"],
    isTask := true,
    source_url := "https://g.example/post",
    source_domain := "g.example",
    followers := [bugFollowerA, bugFollowerB],
    fanoutMf2 := { items := [] },
    getOrCreate := fun s t =>
      { source := s, target := t, status := "new", source_mf2 := none, target_as2 := none } }

/-- Fan-out store with only the inbox-less follower: here the None in the
singleton set is indeed dropped silently. -/
def bugEnv10single : WMEnv :=
  { verbsWithObject := ["like", "share", "follow"],
    isTask := true,
    source_url := "https://g.example/post",
    source_domain := "g.example",
    followers := [bugFollowerB],
    fanoutMf2 := { items := [] },
    getOrCreate := fun s t =>
      { source := s, target := t, status := "new", source_mf2 := none, target_as2 := none } }

/-- C10 (code bug): a follower whose truthy actor dict has none of the
three inbox fields contributes the value None to the inbox set; alone it is
silently dropped as the claim describes, but as soon as any sibling
follower resolves a string inbox the sort over the mixed set raises a
TypeError (string compared with None) and the whole fan-out aborts instead
of producing deliveries, so the drop is not error-free. -/
theorem c10_inboxless_follower_crash :
    extractInbox bugActorB = none ∧
    inboxContribution bugFollowerB = some none ∧
    fanout bugEnv10single = .ok [] ∧
    fanout bugEnv10 = .error "TypeError: unorderable types: str and NoneType" :=
  ⟨rfl, rfl, by decide, by decide⟩

/-- Model of the Python substring operator (needle in haystack) used by the
backlink check at line 94. -/
def isSubstr (n : List Char) : List Char → Bool
  | [] => n.isEmpty
  | c :: tail => n.isPrefixOf (c :: tail) || isSubstr n tail

/-- Faithfulness of the substring model: it holds exactly when the haystack
splits around the needle. -/
theorem isSubstr_iff (n : List Char) :
    ∀ (h : List Char), isSubstr n h = true ↔ ∃ pre post, h = pre ++ n ++ post := by
  intro h
  induction h with
  | nil =>
      simp only [isSubstr, List.isEmpty_iff]
      constructor
      · rintro rfl; exact ⟨[], [], rfl⟩
      · rintro ⟨pre, post, hp⟩
        rcases List.append_eq_nil.mp (List.append_eq_nil.mp hp.symm).1 with ⟨-, h2⟩
        exact h2
  | cons c tail ih =>
      simp only [isSubstr, Bool.or_eq_true, ih, List.isPrefixOf_iff_prefix]
      constructor
      · rintro (⟨post, hpost⟩ | ⟨pre, post, rfl⟩)
        · exact ⟨[], post, by simp [hpost]⟩
        · exact ⟨c :: pre, post, rfl⟩
      · rintro ⟨pre, post, hp⟩
        cases pre with
        | nil =>
            left
            exact ⟨post, by simpa using hp.symm⟩
        | cons p ps =>
            right
            rw [List.cons_append, List.cons_append] at hp
            injection hp with h1 h2
            exact ⟨ps, post, h2⟩

/-- Model of the backlink gate of lines 93-97: some configured local domain
occurs as a substring of the fetched page body. -/
def backlinkOk (domains : List String) (text : String) : Bool :=
  domains.any (fun d => isSubstr d.data text.data)

/-- Caller-visible result of the content path of dispatch_request: a flask
error (4xx), the 202 accepted hand-off, an ok body with optional status, a
re-raised gateway exception, an uncaught runtime error, or the outcome of
the unexpanded explicit-target branch. -/
inductive DispatchResult where
  | err (msg : String)
  | accepted (code : Nat) (msg : String)
  | ok (body : String) (code : Option Nat)
  | raisedGateway (msg : String)
  | pyError (msg : String)
  | explicitOutcome
deriving DecidableEq

/-- Trace of one content-path ingestion: result, the signed_post calls
made, and the resolved target list (none when resolution was never
reached). -/
structure DispatchTrace where
  result : DispatchResult
  calls : List (String × AS2)
  targetsResolved : Option (List String)
deriving DecidableEq

/-- Inputs of the content path of dispatch_request, lines 76-121: the
configured local domains and host url (common.DOMAINS and common.host_url,
configuration), the fetched page body, the url fragment and mf2 parse
result of lines 83-87, the first entry of line 100 (external mf2util
parse boundary), the converted AS1 of line 111 (external granary boundary),
and the environments of target resolution and delivery. explicitCalls is
the oracle for the signed calls of the unexpanded explicit-target branch. -/
structure DispatchEnv where
  domains : List String
  hostUrl : String
  pageText : String
  fragment : Option String
  mf2 : Option MF2
  entry : Option MF2Item
  as1 : AS1
  wm : WMEnv
  delivery : DeliveryEnv
  explicitCalls : List String → List (String × AS2)

/-- Mapping of a batch outcome to the dispatch result, including the
fallback No ActivityPub targets body of lines 74 and 121. -/
def mapBatch : BatchResult → DispatchResult
  | .resp b c => .ok b (some c)
  | .text b => .ok b none
  | .raised m => .raisedGateway m
  | .noTargets => .ok "No ActivityPub targets" none

/-- The delivery tail of the content path: target resolution followed by
try_activitypub on the fan-out pairs, lines 119-121 over 202-255. -/
def dispatchDeliver (D : DispatchEnv) : DispatchTrace :=
  match activitypub_targets D.wm D.as1 with
  | .asyncAccepted _ code msg => { result := .accepted code msg, calls := [], targetsResolved := some [] }
  | .typeError e => { result := .pyError e, calls := [], targetsResolved := some [] }
  | .fanout pairs =>
      { result := mapBatch (try_activitypub D.delivery none pairs),
        calls := (processTargets D.delivery none pairs).calls,
        targetsResolved := some [] }
  | .explicitPath ts => { result := .explicitOutcome, calls := D.explicitCalls ts, targetsResolved := some ts }

/-- Lines 91-104: the backlink gate, then the entry requirement, then
delivery. -/
def dispatchAfterParse (D : DispatchEnv) : DispatchTrace :=
  if backlinkOk D.domains D.pageText then
    match D.entry with
    | none => { result := .err ("No microformats2 found on " ++ D.wm.source_url),
                calls := [], targetsResolved := none }
    | some _ => dispatchDeliver D
  else
    { result := .err ("Couldn\x27t find link to " ++ pyRstripSlashes D.hostUrl),
      calls := [], targetsResolved := none }

/-- The content path of dispatch_request, lines 76-121: the fragment check
of lines 86-87, then the rest. -/
def dispatch_request_content (D : DispatchEnv) : DispatchTrace :=
  match D.fragment, D.mf2 with
  | some frag, none =>
      { result := .err ("#" ++ frag ++ " not found in " ++ D.wm.source_url),
        calls := [], targetsResolved := none }
  | _, _ => dispatchAfterParse D

/-- C7: for every fetched source page whose body text contains none of the
local service's own domains (and whose fragment resolution succeeded),
ingestion fails with the backlink error and zero delivery attempts are
made: no target is resolved and no signed delivery call occurs, whatever
the follower store and remote world look like. -/
theorem c7_backlink_gate (D : DispatchEnv)
    (hparse : ¬ (D.fragment.isSome ∧ D.mf2 = none))
    (hno : ∀ d ∈ D.domains, isSubstr d.data D.pageText.data = false) :
    dispatch_request_content D =
      { result := .err ("Couldn\x27t find link to " ++ pyRstripSlashes D.hostUrl),
        calls := [], targetsResolved := none } := by
  have hbl : backlinkOk D.domains D.pageText = false := by
    simp only [backlinkOk, List.any_eq_false]
    intro d hd
    simp [hno d hd]
  have hafter : dispatchAfterParse D =
      { result := .err ("Couldn\x27t find link to " ++ pyRstripSlashes D.hostUrl),
        calls := [], targetsResolved := none } := by
    simp [dispatchAfterParse, hbl]
  cases hf : D.fragment with
  | none =>
      cases hm : D.mf2 with
      | none => simp [dispatch_request_content, hf, hm, hafter]
      | some m => simp [dispatch_request_content, hf, hm, hafter]
  | some frag =>
      cases hm : D.mf2 with
      | none => exact absurd ⟨by simp [hf], hm⟩ hparse
      | some m => simp [dispatch_request_content, hf, hm, hafter]

/-- Target-resolution environment of the C7 witness. -/
def wWm7 : WMEnv :=
  { verbsWithObject := ["like", "share", "follow"],
    isTask := false,
    source_url := "https://h.example/post",
    source_domain := "h.example",
    followers := [],
    fanoutMf2 := { items := [] },
    getOrCreate := fun s t =>
      { source := s, target := t, status := "new", source_mf2 := none, target_as2 := none } }

/-- Delivery environment of the C7 witness. -/
def wDel7 : DeliveryEnv :=
  { mkAS2 := fun _ => { typ := "Note", actor := none, object := none },
    hostActor := "https://fed.brid.gy/h.example",
    now := "2022-11-01T00:00:00",
    post := fun _ _ => .success "done" 200,
    sourceMf2 := { items := [] },
    as1ObjectUrl := none }

/-- Content-path inputs of the C7 witness: a fetched page with no backlink
to any configured domain. -/
def wD7 : DispatchEnv :=
  { domains := ["fed.brid.gy", "bridgy.example"],
    hostUrl := "https://fed.brid.gy/",
    pageText := "just a post with no link back",
    fragment := none,
    mf2 := some { items := [] },
    entry := some { properties := [] },
    as1 := { inReplyTo := ["https://other.example/note"], verb := "post", objectUrls := [] },
    wm := wWm7,
    delivery := wDel7,
    explicitCalls := fun ts => ts.map (fun u => (u, { typ := "Note", actor := none, object := none })) }

theorem c7_backlink_gate_witness :
    dispatch_request_content wD7 =
      { result := .err ("Couldn\x27t find link to " ++ pyRstripSlashes wD7.hostUrl),
        calls := [], targetsResolved := none } :=
  c7_backlink_gate wD7 (by decide) (by decide)

end BridgyFed
